import Mathlib

/-!
Verification of Rtab2csv.py (AxelRamosGarcia/Conociverso-Inteligencia-Artificial).

The script converts a delimited text table (optionally gzip-compressed) to CSV:
it detects the field delimiter from a bounded preview, then converts via pandas
(structured path) with a csv-module streaming fallback, skipping comment lines.

This file gives a shallow embedding of the script over decoded text modelled as
a value of type List Char (one character per decoded code point; the text-mode
reads in the script apply universal-newline translation, so embedded text uses
a single newline character per line break).  Numeric scores use the rationals,
the exact idealization of the small-integer float arithmetic of the script.
-/

/-! ## Python string primitives used by the script -/

/-- The whitespace set of the Python methods str.strip, str.lstrip (restricted
to the ASCII whitespace characters, the only ones relevant here). -/
def pyWhitespace (c : Char) : Bool :=
  c == ' ' || c == '\t' || c == '\n' || c == '\r' || c == '\x0b' || c == '\x0c'

/-- Python str.strip with no arguments: remove leading and trailing whitespace. -/
def pyStrip (l : List Char) : List Char :=
  ((l.dropWhile pyWhitespace).reverse.dropWhile pyWhitespace).reverse

/-- Python str.lstrip with no arguments: remove leading whitespace. -/
def pyLStrip (l : List Char) : List Char :=
  l.dropWhile pyWhitespace

/-- Helper for splitlines: accumulate the current line in reverse. -/
def splitlinesAux : List Char → List Char → List (List Char)
  | [], acc => if acc.isEmpty then [] else [acc.reverse]
  | '\r' :: '\n' :: rest, acc => acc.reverse :: splitlinesAux rest []
  | '\n' :: rest, acc => acc.reverse :: splitlinesAux rest []
  | '\r' :: rest, acc => acc.reverse :: splitlinesAux rest []
  | c :: rest, acc => splitlinesAux rest (c :: acc)

/-- Python str.splitlines (for the newline boundaries that can occur in the
universal-newline-translated text the script works on): split at line breaks,
boundaries consumed, no trailing empty line. -/
def splitlines (l : List Char) : List (List Char) :=
  splitlinesAux l []

/-! ## Delimiter detector (src/Rtab2csv.py lines 19-36) -/

/-- The fixed candidate list of detect_delimiter (line 21), tab first. -/
def delims : List Char := ['\t', ';', ',', '|', ' ']

/-- Line 26: counts = [line.count(d) for line in lines if line.strip()],
the per-line occurrence counts of candidate d over the non-blank lines. -/
def lineCounts (d : Char) (lines : List (List Char)) : List Nat :=
  (lines.filter (fun l => !(pyStrip l).isEmpty)).map (fun l => l.count d)

/-- Line 30: mean = sum(counts)/len(counts). -/
def meanQ (counts : List Nat) : ℚ :=
  (counts.map (fun (c : Nat) => (c : ℚ))).sum / (counts.length : ℚ)

/-- Line 31: var = sum((c-mean)**2 for c in counts)/len(counts). -/
def varQ (counts : List Nat) : ℚ :=
  (counts.map (fun (c : Nat) => ((c : ℚ) - meanQ counts) ^ 2)).sum / (counts.length : ℚ)

/-- Line 32: score = mean - var. -/
def scoreQ (counts : List Nat) : ℚ :=
  meanQ counts - varQ counts

/-- The score of candidate d over a list of sample lines. -/
def lineScore (lines : List (List Char)) (d : Char) : ℚ :=
  scoreQ (lineCounts d lines)

/-- One iteration of the loop of detect_delimiter (lines 25-35): skip the
candidate when counts is empty, otherwise update (best, best_score) when the
score strictly exceeds the best score so far. -/
def detectStep (lines : List (List Char)) (bs : Char × ℚ) (d : Char) : Char × ℚ :=
  if (lineCounts d lines).isEmpty then bs
  else if scoreQ (lineCounts d lines) > bs.2 then (d, scoreQ (lineCounts d lines)) else bs

/-- Line 22: lines = sample.strip().splitlines(). -/
def sampleLines (sample : List Char) : List (List Char) :=
  splitlines (pyStrip sample)

/-- detect_delimiter (lines 19-36): best starts as delims[0] (tab) with
best_score = -1; each candidate is scored and the final best is returned. -/
def detect_delimiter (sample : List Char) : Char :=
  (delims.foldl (detectStep (sampleLines sample)) ('\t', -1)).1

/-- The score a candidate receives inside detect_delimiter on a given sample. -/
def delimScore (sample : List Char) (d : Char) : ℚ :=
  lineScore (sampleLines sample) d

/-! ## The csv module reader (used by convert_fallback, line 60)

The fallback reads the input through csv.reader(fin, delimiter=d) with the
default dialect: quote character a double quote, doubled quotes as escapes,
non-strict mode.  The text stream comes from a text-mode open, so universal
newline translation has already reduced every line break to a single newline
character; the reader automaton below therefore treats the newline character
as the only record boundary.  A blank line yields an empty row.  A quoted
field may span line breaks.  At end of input a pending field or record is
emitted as-is. -/

/-- The parser states of the csv reader automaton (the states of the Python
csv parser reachable with the default dialect and newline-translated input). -/
inductive CsvMode
  | startRecord
  | startField
  | inField
  | inQuotedField
  | quoteInQuotedField
deriving DecidableEq

/-- The csv reader automaton: one step per character; field is the field
being accumulated and row the fields of the record in progress. -/
def csvParseGo (d : Char) : List Char → CsvMode → List Char → List (List Char) → List (List (List Char))
  | [], CsvMode.startRecord, _, _ => []
  | [], _, field, row => [row ++ [field]]
  | c :: rest, CsvMode.startRecord, _, _ =>
      if c = '\n' then [] :: csvParseGo d rest CsvMode.startRecord [] []
      else if c = '"' then csvParseGo d rest CsvMode.inQuotedField [] []
      else if c = d then csvParseGo d rest CsvMode.startField [] [[]]
      else csvParseGo d rest CsvMode.inField [c] []
  | c :: rest, CsvMode.startField, _, row =>
      if c = '\n' then (row ++ [[]]) :: csvParseGo d rest CsvMode.startRecord [] []
      else if c = '"' then csvParseGo d rest CsvMode.inQuotedField [] row
      else if c = d then csvParseGo d rest CsvMode.startField [] (row ++ [[]])
      else csvParseGo d rest CsvMode.inField [c] row
  | c :: rest, CsvMode.inField, field, row =>
      if c = '\n' then (row ++ [field]) :: csvParseGo d rest CsvMode.startRecord [] []
      else if c = d then csvParseGo d rest CsvMode.startField [] (row ++ [field])
      else csvParseGo d rest CsvMode.inField (field ++ [c]) row
  | c :: rest, CsvMode.inQuotedField, field, row =>
      if c = '"' then csvParseGo d rest CsvMode.quoteInQuotedField field row
      else csvParseGo d rest CsvMode.inQuotedField (field ++ [c]) row
  | c :: rest, CsvMode.quoteInQuotedField, field, row =>
      if c = '"' then csvParseGo d rest CsvMode.inQuotedField (field ++ ['"']) row
      else if c = '\n' then (row ++ [field]) :: csvParseGo d rest CsvMode.startRecord [] []
      else if c = d then csvParseGo d rest CsvMode.startField [] (row ++ [field])
      else csvParseGo d rest CsvMode.inField (field ++ [c]) row

/-- csv.reader over a whole text: the list of parsed rows. -/
def csvParse (d : Char) (text : List Char) : List (List (List Char)) :=
  csvParseGo d text CsvMode.startRecord [] []

/-! ## The csv module writer (used by convert_fallback, line 61, and by
pandas to_csv, line 54; both write comma-separated output) -/

/-- QUOTE_MINIMAL: a field is quoted when it holds the output delimiter
(a comma), the quote character, or a line-terminator character. -/
def needsQuote (f : List Char) : Bool :=
  f.any (fun c => c == ',' || c == '"' || c == '\r' || c == '\n')

/-- Render one field: quote when needed, doubling embedded quote characters. -/
def csvWriteField (f : List Char) : List Char :=
  if needsQuote f then
    '"' :: ((f.map (fun c => if c = '"' then ['"', '"'] else [c])).flatten ++ ['"'])
  else f

/-- Join the fields of a row with commas.  A row holding a single empty
field is written as a pair of quotes, the way the csv writer distinguishes
it from a blank line; an empty row is written as nothing. -/
def csvJoinRow (row : List (List Char)) : List Char :=
  match row with
  | [f] => if f.isEmpty then ['"', '"'] else csvWriteField f
  | _ => List.intercalate [','] (row.map csvWriteField)

/-- csv.writer writerow with the default line terminator (CR LF); the output
file is opened with newline='' so the terminator reaches the file verbatim. -/
def csvWriteRow (row : List (List Char)) : List Char :=
  csvJoinRow row ++ ['\r', '\n']

/-! ## The fallback conversion path (src/Rtab2csv.py lines 57-66) -/

/-- Line 64: the row skip test of convert_fallback: the row is non-empty and
its first field, once leading whitespace is stripped, starts with the comment
character. -/
def skipRow (comment : Char) : List (List Char) → Bool
  | [] => false
  | f :: _ => (pyLStrip f).head? == some comment

/-- The rows convert_fallback retains: every parsed row whose skip test is
false, in order (lines 62-65). -/
def fallbackRows (delimiter comment : Char) (text : List Char) : List (List (List Char)) :=
  (csvParse delimiter text).filter (fun r => !skipRow comment r)

/-- convert_fallback (lines 57-66): parse the input with the csv reader and
write every retained row with the csv writer.  The function returns the text
written to the output file. -/
def convert_fallback (delimiter comment : Char) (text : List Char) : List Char :=
  ((fallbackRows delimiter comment text).map csvWriteRow).flatten

/-! ## The structured (pandas) conversion path (src/Rtab2csv.py lines 48-55)

convert_with_pandas calls pd.read_csv(inpath, sep=delimiter, comment=comment,
engine="python", dtype=str) and df.to_csv(outpath, index=False).  The pandas
python engine is modelled from its documented and observable behavior: rows
come from the csv reader with the chosen delimiter; comment handling truncates
each row at the first field holding the comment character, keeping the part of
that field before it when non-empty; rows that are empty, or reduced to one
whitespace-only field, are dropped; an input with no remaining rows raises
EmptyDataError; the first row is the header; a later row with more fields than
the header raises a parser error, a shorter row is padded with missing values
(written back as empty cells); to_csv writes with the csv writer and a single
newline terminator.  The default na_value recognition of pandas is not
modelled (no cell in the claims is an na string). -/

/-- Comment truncation of the pandas python engine on one parsed row: the
first field holding the comment character is cut at it (dropped entirely when
nothing precedes the comment character) and the rest of the row is dropped. -/
def checkCommentsRow (comment : Char) : List (List Char) → List (List Char)
  | [] => []
  | f :: rest =>
      if comment ∈ f then
        let pre := f.takeWhile (fun c => !(c == comment))
        if pre.isEmpty then [] else [pre]
      else f :: checkCommentsRow comment rest

/-- Comment truncation over all rows. -/
def checkComments (comment : Char) (rows : List (List (List Char))) : List (List (List Char)) :=
  rows.map (checkCommentsRow comment)

/-- The blank-row test of the pandas python engine: a row is dropped when it
is empty or holds a single whitespace-only field. -/
def isEmptyRow : List (List Char) → Bool
  | [] => true
  | [f] => (pyStrip f).isEmpty
  | _ => false

/-- Blank-row removal of the pandas python engine. -/
def removeEmptyLines (rows : List (List (List Char))) : List (List (List Char)) :=
  rows.filter (fun r => !isEmptyRow r)

/-- The errors the structured path can raise (all are caught by main). -/
inductive PdError
  | importError
  | emptyData
  | tokenizeError
deriving DecidableEq

/-- The parsed frame: header names and data rows, every cell raw text. -/
structure Df where
  columns : List (List Char)
  rows : List (List (List Char))
deriving DecidableEq

/-- pd.read_csv(inpath, sep=delimiter, comment=comment, engine="python",
dtype=str), modelled as described in the section comment. -/
def pandasReadCsv (sep comment : Char) (text : List Char) : Except PdError Df :=
  match removeEmptyLines (checkComments comment (csvParse sep text)) with
  | [] => Except.error PdError.emptyData
  | header :: data =>
      if data.any (fun r => header.length < r.length) then
        Except.error PdError.tokenizeError
      else
        Except.ok
          { columns := header,
            rows := data.map (fun r => r ++ List.replicate (header.length - r.length) []) }

/-- One output row of df.to_csv: the csv writer joining with the newline
terminator pandas uses on this platform. -/
def pdWriteRow (row : List (List Char)) : List Char :=
  csvJoinRow row ++ ['\n']

/-- df.to_csv(outpath, index=False, encoding="utf-8"): header line then one
line per data row. -/
def pandasToCsv (df : Df) : List Char :=
  pdWriteRow df.columns ++ (df.rows.map pdWriteRow).flatten

/-- convert_with_pandas (lines 48-55): read the frame, strip the column names
of surrounding whitespace, write the frame back as comma-separated text.
Returns the frame together with the text written to the output file. -/
def convert_with_pandas (delimiter comment : Char) (text : List Char) :
    Except PdError (Df × List Char) :=
  match pandasReadCsv delimiter comment text with
  | Except.error e => Except.error e
  | Except.ok df =>
      let df2 : Df := { columns := df.columns.map pyStrip, rows := df.rows }
      Except.ok (df2, pandasToCsv df2)

/-! ## Preview, gzip handling and main (src/Rtab2csv.py lines 14-17, 38-46, 68-95) -/

/-- Split one readline call: the first line with its terminator, and the rest. -/
def readlineSplit : List Char → List Char × List Char
  | [] => ([], [])
  | '\n' :: rest => (['\n'], rest)
  | c :: rest =>
      let p := readlineSplit rest
      (c :: p.1, p.2)

/-- read_preview (lines 38-46): concatenate up to n lines read with readline,
stopping at end of input. -/
def read_preview : Nat → List Char → List Char
  | 0, _ => []
  | _, [] => []
  | n + 1, text =>
      let p := readlineSplit text
      p.1 ++ read_preview n p.2

/-- A file as the opener sees it: plain text, or gzip-compressed text.  The
gzipped constructor carries the decompressed logical text: gzip is a lossless
external codec, so decompression is modelled as yielding the stored text. -/
inductive FileEntry
  | plain (text : List Char)
  | gzipped (text : List Char)
deriving DecidableEq

/-- open_maybe_gzip (lines 14-17): paths ending in .gz are opened through the
gzip reader, any other path as plain text; both in universal-newline text mode
with utf-8 decoding (decoding is upstream of this model, which works on the
decoded text).  Opening a file whose storage does not match the chosen reader
is modelled as unavailable. -/
def open_maybe_gzip (fs : List Char → Option FileEntry) (path : List Char) : Option (List Char) :=
  if (".gz").data.isSuffixOf path then
    match fs path with
    | some (FileEntry.gzipped t) => some t
    | _ => none
  else
    match fs path with
    | some (FileEntry.plain t) => some t
    | _ => none

/-- The two conversion strategies of main. -/
inductive ConvPath
  | structured
  | fallback
deriving DecidableEq

/-- The observable outcome of a run of main on an input that exists: the exit
status, the preview printed after the banner, the detected delimiter, the text
written to the output file, the row and column counts when the structured path
reports them, and the conversion paths attempted in order. -/
structure RunResult where
  exitCode : Nat
  preview : List Char
  delim : Char
  output : List Char
  rowCol : Option (Nat × Nat)
  attempts : List ConvPath
deriving DecidableEq

/-- main (lines 77-95) on an input that passed the argument and existence
checks, as a function of the input text: read a 20-line preview, print it (or
the file-empty marker), detect the delimiter, try the structured path with
comment character the hash mark, and on any structured error fall back to the
streaming path.  pandasAvailable false models an ImportError raised by the
pandas import of line 49.  I/O always succeeds in this model, so the fallback path
cannot fail here; mainControl below covers the failure combinations. -/
def runMain (pandasAvailable : Bool) (input : List Char) : RunResult :=
  let sample := read_preview 20 input
  let preview := if sample.isEmpty then ("(file empty)").data else sample
  let delim := detect_delimiter sample
  let structured : Except PdError (Df × List Char) :=
    if pandasAvailable then convert_with_pandas delim '#' input
    else Except.error PdError.importError
  match structured with
  | Except.ok (df, out) =>
      { exitCode := 0, preview := preview, delim := delim, output := out,
        rowCol := some (df.rows.length, df.columns.length),
        attempts := [ConvPath.structured] }
  | Except.error _ =>
      { exitCode := 0, preview := preview, delim := delim,
        output := convert_fallback delim '#' input,
        rowCol := none, attempts := [ConvPath.structured, ConvPath.fallback] }

/-- main through the file opener: the run is a function of the logical text
the opener yields (the structured path reads the same path with pandas, which
infers gzip decompression from the same .gz suffix). -/
def runMainFile (pandasAvailable : Bool) (fs : List Char → Option FileEntry)
    (inpath : List Char) : Option RunResult :=
  (open_maybe_gzip fs inpath).map (runMain pandasAvailable)

/-- The control-flow skeleton of main (lines 68-95): the argument-count and
existence checks, then the try/except ladder, with the success or failure of
each conversion attempt abstracted as a boolean oracle.  Returns the list of
conversion paths attempted, in order, and the exit status (0 when main falls
through without calling sys.exit). -/
def mainControl (argc : Nat) (inputExists structuredOk fallbackOk : Bool) :
    List ConvPath × Nat :=
  if argc < 3 then ([], 1)
  else if !inputExists then ([], 2)
  else if structuredOk then ([ConvPath.structured], 0)
  else if fallbackOk then ([ConvPath.structured, ConvPath.fallback], 0)
  else ([ConvPath.structured, ConvPath.fallback], 3)

/-! ## Concrete samples used in counterexamples -/

/-- A sample on which every candidate scores at most -1: each candidate
occurs erratically in the first line and not in the second.  The occurrence
counts are 4 for the semicolon and 6 for every other candidate, giving the
semicolon the strictly highest score, -2, and every other candidate -6. -/
def sampleAllNegative : List Char :=
  (";;;;,,,,,,||||||\t\t\t\t\t\t      x\nx\n").data

/-- A sample whose tab occurrences are erratic (counts 4 and 0, score -2)
while the semicolon occurs nowhere (counts 0 and 0, score 0). -/
def sampleErraticTab : List Char :=
  ("a\tb\tc\td\te\nx\n").data

/-- An input line whose first non-whitespace character is the comment mark,
preceded by a delimiter, followed by a newline. -/
def inputTabHash : List Char :=
  ("\t#x\n").data

/-- An input whose single record holds a quoted field spanning a line break. -/
def inputQuotedNewline : List Char :=
  ("\"a\nb\"\n").data

/-! ## Claim C1 -/

unseal Rat.mul Rat.inv Rat.add Rat.sub in
/-- C1 counterexample: on sampleAllNegative every candidate is eligible and
the semicolon has the strictly highest score (every other candidate scores
strictly lower), yet detect_delimiter returns the tab: the initial best score
of -1 acts as a threshold the claim does not mention. -/
theorem detect_misses_strict_highest :
    detect_delimiter sampleAllNegative = '\t' ∧
    (∀ c ∈ delims, c ≠ ';' → delimScore sampleAllNegative c < delimScore sampleAllNegative ';') ∧
    (sampleLines sampleAllNegative).filter (fun l => !(pyStrip l).isEmpty) ≠ [] := by
  decide

/-! ## Claim C2 -/

unseal Rat.mul Rat.inv Rat.add Rat.sub in
/-- C2 counterexample: on sampleErraticTab the semicolon occurs in no line of
the sample at all, yet detect_delimiter returns it (and it is not the default
tab): a zero-occurrence candidate is scored 0, not skipped, and 0 beats the
initial best score while the erratic tab score -2 does not. -/
theorem detect_returns_absent_candidate :
    detect_delimiter sampleErraticTab = ';' ∧ ';' ∉ sampleErraticTab ∧ ';' ≠ '\t' := by
  decide

/-! ## Claim C3 -/

/-- C3 counterexample: the input line of inputTabHash has the comment mark as
its first non-whitespace character, yet the fallback path writes a record for
it: the skip test looks only at the first parsed field, which here is the
empty field before the delimiter. -/
theorem fallback_keeps_hash_after_delimiter :
    (pyLStrip (('\t') :: ('#') :: ('x') :: [])).head? = some '#' ∧
    convert_fallback '\t' '#' inputTabHash = (",#x\r\n").data := by
  decide

/-! ## Claim C6 -/

unseal Rat.mul Rat.inv Rat.add Rat.sub in
/-- C6: on the three-line tab table the detector returns the tab, the
structured path converts, the output file holds exactly the comma-separated
table, and the reported counts are 2 rows and 3 columns. -/
theorem scenario_tab_table :
    runMain true (("a\tb\tc\n1\t2\t3\n4\t5\t6\n").data) =
      { exitCode := 0,
        preview := ("a\tb\tc\n1\t2\t3\n4\t5\t6\n").data,
        delim := '\t',
        output := ("a,b,c\n1,2,3\n4,5,6\n").data,
        rowCol := some (2, 3),
        attempts := [ConvPath.structured] } := by
  decide

/-! ## Claim C8 -/

unseal Rat.mul Rat.inv Rat.add Rat.sub in
/-- C8: on an empty input the run reports the file-empty preview marker,
detection returns the default tab, the structured path raises EmptyDataError
and the fallback writes an output with zero rows, with exit status 0. -/
theorem empty_input_graceful :
    runMain true [] =
      { exitCode := 0,
        preview := ("(file empty)").data,
        delim := '\t',
        output := [],
        rowCol := none,
        attempts := [ConvPath.structured, ConvPath.fallback] } := by
  decide

/-! ## Claim C9 -/

/-- C9 counterexample: an invocation with three positional arguments (argc 4
counting the program name) has the wrong argument count by the claim, yet
main proceeds and exits 0 when the input exists and a path succeeds: the
check of line 69 only rejects fewer than two positional arguments. -/
theorem exit_zero_with_three_positional_args :
    (mainControl 4 true true true).2 = 0 ∧ (4 : Nat) - 1 ≠ 2 := by
  decide

/-- C9 amended: exit status 1 exactly when fewer than two positional
arguments are given (extra arguments are ignored); exit status 2 exactly when
the arguments suffice and the input path does not exist; exit status 0
exactly when the checks pass and a conversion path wrote the output. -/
theorem exit_code_rules (argc : Nat) (ex s f : Bool) :
    ((mainControl argc ex s f).2 = 1 ↔ argc < 3) ∧
    ((mainControl argc ex s f).2 = 2 ↔ 3 ≤ argc ∧ ex = false) ∧
    ((mainControl argc ex s f).2 = 0 ↔ 3 ≤ argc ∧ ex = true ∧ (s = true ∨ f = true)) := by
  rcases Nat.lt_or_ge argc 3 with h | h
  · simp [mainControl, h, Nat.not_le_of_lt h]
  · have h3 : ¬argc < 3 := Nat.not_lt.mpr h
    cases ex <;> cases s <;> cases f <;> simp [mainControl, h3, h]

/-! ## Claim C4 -/

/-- C4: for every invocation that reaches the conversion stage, the
structured path is attempted exactly once; a structured error is caught and
followed by exactly one fallback attempt (no fallback runs when the
structured path succeeds); and the exit status is the hard-failure 3 exactly
when both attempts fail. -/
theorem structured_error_caught_fallback_once (argc : Nat) (s f : Bool) (h : 3 ≤ argc) :
    ((mainControl argc true s f).1.count ConvPath.structured = 1) ∧
    ((mainControl argc true s f).1.count ConvPath.fallback = if s then 0 else 1) ∧
    ((mainControl argc true s f).2 = 3 ↔ s = false ∧ f = false) := by
  have h3 : ¬argc < 3 := Nat.not_lt.mpr h
  cases s <;> cases f <;> simp [mainControl, h3, List.count_cons, List.count_nil]

/-- Witness for C4 at a concrete invocation: both paths failing on a present
input with exactly two arguments. -/
theorem structured_error_caught_fallback_once_witness :
    (3 ≤ 3) ∧
    (((mainControl 3 true false false).1.count ConvPath.structured = 1) ∧
     ((mainControl 3 true false false).1.count ConvPath.fallback = if false then 0 else 1) ∧
     ((mainControl 3 true false false).2 = 3 ↔ false = false ∧ false = false)) :=
  ⟨by decide, structured_error_caught_fallback_once 3 false false (by decide)⟩

/-! ## Claim C7 -/

/-- A list of whitespace characters strips to the empty list. -/
theorem pyStrip_eq_nil_of_ws (l : List Char) (h : ∀ c ∈ l, pyWhitespace c = true) :
    pyStrip l = [] := by
  unfold pyStrip
  rw [List.dropWhile_eq_nil_iff.mpr h]
  rfl

/-- C7: on an empty or whitespace-only sample, detect_delimiter returns the
default first candidate, the tab, without error: stripping leaves nothing,
there are no lines, every candidate has an empty count list and is skipped. -/
theorem detect_whitespace_sample_tab (sample : List Char)
    (h : ∀ c ∈ sample, pyWhitespace c = true) :
    detect_delimiter sample = '\t' := by
  unfold detect_delimiter sampleLines
  rw [pyStrip_eq_nil_of_ws sample h]
  decide

/-- Witness for C7 at a concrete whitespace-only sample. -/
theorem detect_whitespace_sample_tab_witness :
    (∀ c ∈ (" \t\n ").data, pyWhitespace c = true) ∧
    detect_delimiter ((" \t\n ").data) = '\t' :=
  ⟨by decide, detect_whitespace_sample_tab ((" \t\n ").data) (by decide)⟩

/-! ## Claims C1 and C2, amended: the selection loop of detect_delimiter -/

/-- With at least one non-blank line, every candidate has a non-empty count
list (the count of a candidate on a line is defined for every line). -/
theorem lineCounts_ne_nil (d : Char) (lines : List (List Char))
    (h : lines.filter (fun l => !(pyStrip l).isEmpty) ≠ []) :
    (lineCounts d lines).isEmpty = false := by
  unfold lineCounts
  cases hf : lines.filter (fun l => !(pyStrip l).isEmpty) with
  | nil => exact absurd hf h
  | cons a as => simp


/-- The selection loop: folding detectStep from (b, s) either changes nothing
(and every candidate scored at most s), or returns the first candidate of a
decomposition of the list whose score strictly exceeds s, strictly exceeds
every earlier candidate, and is at least every later candidate. -/
theorem foldl_detectStep_spec (lines : List (List Char))
    (hnb : lines.filter (fun l => !(pyStrip l).isEmpty) ≠ []) :
    ∀ (ds : List Char) (b : Char) (s : ℚ),
      (ds.foldl (detectStep lines) (b, s) = (b, s) ∧ ∀ c ∈ ds, lineScore lines c ≤ s) ∨
      (∃ pre c post, ds = pre ++ c :: post ∧
        ds.foldl (detectStep lines) (b, s) = (c, lineScore lines c) ∧
        s < lineScore lines c ∧
        (∀ x ∈ pre, lineScore lines x < lineScore lines c) ∧
        (∀ x ∈ post, lineScore lines x ≤ lineScore lines c)) := by
  intro ds
  induction ds with
  | nil =>
    intro b s
    left
    exact ⟨rfl, by simp⟩
  | cons d ds ih =>
    intro b s
    have hne : (lineCounts d lines).isEmpty = false := lineCounts_ne_nil d lines hnb
    by_cases hgt : scoreQ (lineCounts d lines) > s
    · have hstep : detectStep lines (b, s) d = (d, lineScore lines d) := by
        unfold detectStep lineScore
        simp [hne, hgt]
      rw [List.foldl_cons, hstep]
      rcases ih d (lineScore lines d) with ⟨heq, hall⟩ | ⟨pre, c, post, hds, hres, hlt, hpre, hpost⟩
      · right
        exact ⟨[], d, ds, rfl, heq, hgt, by simp, hall⟩
      · right
        refine ⟨d :: pre, c, post, by rw [hds]; rfl, hres, lt_trans hgt hlt, ?_, hpost⟩
        intro x hx
        rcases List.mem_cons.mp hx with hx | hx
        · rw [hx]; exact hlt
        · exact hpre x hx
    · have hle : lineScore lines d ≤ s := not_lt.mp hgt
      have hstep : detectStep lines (b, s) d = (b, s) := by
        unfold detectStep
        simp [hne, hgt]
      rw [List.foldl_cons, hstep]
      rcases ih b s with ⟨heq, hall⟩ | ⟨pre, c, post, hds, hres, hlt, hpre, hpost⟩
      · left
        refine ⟨heq, ?_⟩
        intro x hx
        rcases List.mem_cons.mp hx with hx | hx
        · rw [hx]; exact hle
        · exact hall x hx
      · right
        refine ⟨d :: pre, c, post, by rw [hds]; rfl, hres, hlt, ?_, hpost⟩
        intro x hx
        rcases List.mem_cons.mp hx with hx | hx
        · rw [hx]; exact lt_of_le_of_lt hle hlt
        · exact hpre x hx


/-- A candidate occurring in no scored line has every count zero, hence mean
zero, variance zero and score zero. -/
theorem scoreQ_of_all_zero (counts : List Nat) (hz : ∀ x ∈ counts, x = 0) :
    scoreQ counts = 0 := by
  have hm : meanQ counts = 0 := by
    unfold meanQ
    have h0 : (counts.map (fun (c : Nat) => (c : ℚ))).sum = 0 := by
      apply List.sum_eq_zero
      intro x hx
      rcases List.mem_map.mp hx with ⟨y, hy, hxy⟩
      rw [← hxy, hz y hy]
      simp
    rw [h0, zero_div]
  have hv : varQ counts = 0 := by
    unfold varQ
    have h0 : (counts.map (fun (c : Nat) => ((c : ℚ) - meanQ counts) ^ 2)).sum = 0 := by
      apply List.sum_eq_zero
      intro x hx
      rcases List.mem_map.mp hx with ⟨y, hy, hxy⟩
      rw [← hxy, hz y hy, hm]
      simp
    rw [h0, zero_div]
  unfold scoreQ
  rw [hm, hv, sub_zero]


/-- C1 amended: with at least one non-blank line, detect_delimiter returns
the candidate with the strictly highest score among the five, ties to the
candidate evaluated first, but only when that score exceeds the initial best
score -1; when every candidate scores at most -1 the default tab is returned
even when tab does not have the highest score. -/
theorem detect_first_strict_max (sample : List Char)
    (h : (sampleLines sample).filter (fun l => !(pyStrip l).isEmpty) ≠ []) :
    (∃ pre post, delims = pre ++ detect_delimiter sample :: post ∧
       (-1 : ℚ) < delimScore sample (detect_delimiter sample) ∧
       (∀ c ∈ pre, delimScore sample c < delimScore sample (detect_delimiter sample)) ∧
       (∀ c ∈ post, delimScore sample c ≤ delimScore sample (detect_delimiter sample))) ∨
    (detect_delimiter sample = '\t' ∧ ∀ c ∈ delims, delimScore sample c ≤ -1) := by
  rcases foldl_detectStep_spec (sampleLines sample) h delims '\t' (-1) with
    ⟨heq, hall⟩ | ⟨pre, c, post, hds, hres, hlt, hpre, hpost⟩
  · right
    constructor
    · unfold detect_delimiter
      rw [heq]
    · exact hall
  · left
    have hdet : detect_delimiter sample = c := by
      unfold detect_delimiter
      rw [hres]
    refine ⟨pre, post, ?_, ?_, ?_, ?_⟩
    · rw [hdet]; exact hds
    · rw [hdet]
      unfold delimScore
      exact hlt
    · rw [hdet]
      unfold delimScore
      exact hpre
    · rw [hdet]
      unfold delimScore
      exact hpost


/-- C2 amended: the returned delimiter occurs in some non-blank line of the
stripped sample, or is the default tab, or (when the tab occurrences are so
erratic that the tab scores below zero) may be a candidate occurring nowhere,
whose score is zero. -/
theorem detect_occurring_or_default (sample : List Char) :
    (∃ l ∈ (sampleLines sample).filter (fun l => !(pyStrip l).isEmpty),
        detect_delimiter sample ∈ l) ∨
    detect_delimiter sample = '\t' ∨ delimScore sample '\t' < 0 := by
  by_cases hnb : (sampleLines sample).filter (fun l => !(pyStrip l).isEmpty) = []
  · right; left
    unfold detect_delimiter
    have hlc : ∀ d : Char, lineCounts d (sampleLines sample) = [] := by
      intro d
      unfold lineCounts
      rw [hnb]
      rfl
    simp [delims, detectStep, hlc]
  · rcases foldl_detectStep_spec (sampleLines sample) hnb delims '\t' (-1) with
      ⟨heq, _⟩ | ⟨pre, c, post, hds, hres, hlt, hpre, hpost⟩
    · right; left
      unfold detect_delimiter
      rw [heq]
    · have hdet : detect_delimiter sample = c := by
        unfold detect_delimiter
        rw [hres]
      by_cases hocc : ∃ l ∈ (sampleLines sample).filter (fun l => !(pyStrip l).isEmpty), c ∈ l
      · left
        rw [hdet]
        exact hocc
      · push_neg at hocc
        have hz : lineScore (sampleLines sample) c = 0 := by
          unfold lineScore
          apply scoreQ_of_all_zero
          intro x hx
          unfold lineCounts at hx
          rcases List.mem_map.mp hx with ⟨l, hl, hxl⟩
          rw [← hxl]
          exact List.count_eq_zero.mpr (hocc l hl)
        by_cases hc : c = '\t'
        · right; left
          rw [hdet, hc]
        · right; right
          cases pre with
          | nil =>
            simp only [delims, List.nil_append] at hds
            exact absurd (List.cons.inj hds).1.symm hc
          | cons p pre' =>
            have hp : p = '\t' := by
              simp only [delims, List.cons_append] at hds
              exact ((List.cons.inj hds).1).symm
            have htab : '\t' ∈ p :: pre' := by
              rw [hp]
              exact List.mem_cons_self _ _
            have := hpre '\t' htab
            unfold delimScore
            rw [hz] at this
            exact this

unseal Rat.mul Rat.inv Rat.add Rat.sub in
/-- Witness for the amended C1 at a concrete two-column sample. -/
theorem detect_first_strict_max_witness :
    ((sampleLines (("a\tb\n").data)).filter (fun l => !(pyStrip l).isEmpty) ≠ []) ∧
    ((∃ pre post, delims = pre ++ detect_delimiter (("a\tb\n").data) :: post ∧
       (-1 : ℚ) < delimScore (("a\tb\n").data) (detect_delimiter (("a\tb\n").data)) ∧
       (∀ c ∈ pre, delimScore (("a\tb\n").data) c <
          delimScore (("a\tb\n").data) (detect_delimiter (("a\tb\n").data))) ∧
       (∀ c ∈ post, delimScore (("a\tb\n").data) c ≤
          delimScore (("a\tb\n").data) (detect_delimiter (("a\tb\n").data)))) ∨
     (detect_delimiter (("a\tb\n").data) = '\t' ∧
      ∀ c ∈ delims, delimScore (("a\tb\n").data) c ≤ -1)) :=
  ⟨by decide, detect_first_strict_max (("a\tb\n").data) (by decide)⟩

/-! ## Claim C3, amended: the skip rule of the fallback path -/

/-- Splitting a line at a delimiter character (the parse of one quote-free
line): the shape the csv reader reduces to on a line holding no quote
character and no line break. -/
def splitOnChar (d : Char) : List Char → List (List Char)
  | [] => [[]]
  | c :: rest =>
      if c = d then [] :: splitOnChar d rest
      else (c :: (splitOnChar d rest).headD []) :: (splitOnChar d rest).tail

/-- On a quote-free line followed by a newline, the csv reader automaton in
a field state consumes the line as the delimiter-split fields appended to the
record in progress, then restarts.  Stated jointly for the start-field state
and the in-field state with pending field f. -/
theorem csvParseGo_line (d : Char) :
    ∀ (l : List Char), '\n' ∉ l → '"' ∉ l →
      ∀ (rest : List Char) (row : List (List Char)) (f : List Char),
        (csvParseGo d (l ++ '\n' :: rest) CsvMode.startField [] row
          = (row ++ splitOnChar d l) :: csvParseGo d rest CsvMode.startRecord [] []) ∧
        (csvParseGo d (l ++ '\n' :: rest) CsvMode.inField f row
          = (row ++ (f ++ (splitOnChar d l).headD []) :: (splitOnChar d l).tail)
              :: csvParseGo d rest CsvMode.startRecord [] []) := by
  intro l
  induction l with
  | nil =>
    intro _ _ rest row f
    constructor
    · simp [csvParseGo, splitOnChar]
    · simp [csvParseGo, splitOnChar]
  | cons c l ih =>
    intro hn hq rest row f
    have hc1 : ¬c = '\n' := fun h => hn (h ▸ List.mem_cons_self c l)
    have hc2 : ¬c = '"' := fun h => hq (h ▸ List.mem_cons_self c l)
    have hn' : '\n' ∉ l := fun h => hn (List.mem_cons_of_mem c h)
    have hq' : '"' ∉ l := fun h => hq (List.mem_cons_of_mem c h)
    by_cases hcd : c = d
    · constructor
      · show csvParseGo d (c :: (l ++ '\n' :: rest)) CsvMode.startField [] row = _
        rw [csvParseGo]
        simp only [if_neg hc1, if_neg hc2, if_pos hcd]
        rw [(ih hn' hq' rest (row ++ [[]]) []).1]
        simp [splitOnChar, hcd]
      · show csvParseGo d (c :: (l ++ '\n' :: rest)) CsvMode.inField f row = _
        rw [csvParseGo]
        simp only [if_neg hc1, if_pos hcd]
        rw [(ih hn' hq' rest (row ++ [f]) []).1]
        simp [splitOnChar, hcd]
    · constructor
      · show csvParseGo d (c :: (l ++ '\n' :: rest)) CsvMode.startField [] row = _
        rw [csvParseGo]
        simp only [if_neg hc1, if_neg hc2, if_neg hcd]
        rw [(ih hn' hq' rest row [c]).2]
        simp [splitOnChar, hcd]
      · show csvParseGo d (c :: (l ++ '\n' :: rest)) CsvMode.inField f row = _
        rw [csvParseGo]
        simp only [if_neg hc1, if_neg hcd]
        rw [(ih hn' hq' rest row (f ++ [c])).2]
        simp [splitOnChar, hcd]

/-- The csv reader parses one quote-free newline-terminated line as exactly
the delimiter-split fields of the line. -/
theorem csvParse_single_line (d : Char) (l : List Char) (hne : l ≠ [])
    (hn : '\n' ∉ l) (hq : '"' ∉ l) :
    csvParse d (l ++ ['\n']) = [splitOnChar d l] := by
  cases l with
  | nil => exact absurd rfl hne
  | cons c l' =>
    have hc1 : ¬c = '\n' := fun h => hn (h ▸ List.mem_cons_self c l')
    have hc2 : ¬c = '"' := fun h => hq (h ▸ List.mem_cons_self c l')
    have hn' : '\n' ∉ l' := fun h => hn (List.mem_cons_of_mem c h)
    have hq' : '"' ∉ l' := fun h => hq (List.mem_cons_of_mem c h)
    unfold csvParse
    rw [csvParseGo.eq_def]
    simp only [List.cons_append, if_neg hc1, if_neg hc2]
    by_cases hcd : c = d
    · rw [if_pos hcd, (csvParseGo_line d l' hn' hq' [] [[]] []).1]
      simp [csvParseGo, splitOnChar, hcd]
    · rw [if_neg hcd, (csvParseGo_line d l' hn' hq' [] [] [c]).2]
      simp [csvParseGo, splitOnChar, hcd]

/-- C3 amended: on a quote-free input line, the fallback path drops the line
exactly when the skip test of line 64 holds of its parsed fields, that is
when the first field of the delimiter-split line, once leading whitespace is
stripped, begins with the comment mark; a line whose first non-whitespace
character is the comment mark still contributes a record when a delimiter
precedes the mark, because the first field is then the empty field before
the delimiter. -/
theorem fallback_comment_rule (d : Char) (l : List Char) (hne : l ≠ [])
    (hn : '\n' ∉ l) (hq : '"' ∉ l) :
    convert_fallback d '#' (l ++ ['\n']) =
      if skipRow '#' (splitOnChar d l) then [] else csvWriteRow (splitOnChar d l) := by
  unfold convert_fallback fallbackRows
  rw [csvParse_single_line d l hne hn hq]
  by_cases hs : skipRow '#' (splitOnChar d l) = true
  · simp [List.filter, hs]
  · simp [List.filter, hs]

/-- Witness for the amended C3 at a concrete comment line. -/
theorem fallback_comment_rule_witness :
    (('#' :: 'x' :: []) ≠ ([] : List Char)) ∧ ('\n' ∉ ('#' :: 'x' :: [])) ∧
    ('"' ∉ ('#' :: 'x' :: [])) ∧
    convert_fallback '\t' '#' (('#' :: 'x' :: []) ++ ['\n']) =
      (if skipRow '#' (splitOnChar '\t' ('#' :: 'x' :: [])) then []
       else csvWriteRow (splitOnChar '\t' ('#' :: 'x' :: []))) :=
  ⟨by decide, by decide, by decide,
   fallback_comment_rule '\t' ('#' :: 'x' :: []) (by decide) (by decide) (by decide)⟩

/-! ## Claims C5 and C10 -/

/-- C5: converting a plain file and a gzip-compressed copy holding the same
logical text, the compressed one named with the .gz suffix, produces the same
run outcome, in particular byte-identical output files (and the same detected
delimiter); the choice of decompression is exactly the suffix test of line 15
and the rest of the run is a function of the decoded text alone. -/
theorem gzip_transparent_output (b : Bool) (fs : List Char → Option FileEntry)
    (p q : List Char) (t : List Char)
    (hp : fs p = some (FileEntry.plain t)) (hps : (".gz").data.isSuffixOf p = false)
    (hq : fs q = some (FileEntry.gzipped t)) (hqs : (".gz").data.isSuffixOf q = true) :
    runMainFile b fs p = runMainFile b fs q ∧
    runMainFile b fs p = some (runMain b t) := by
  unfold runMainFile open_maybe_gzip
  rw [hps, hqs, hp, hq]
  simp

unseal Rat.mul Rat.inv Rat.add Rat.sub in
/-- Witness for C5 on a one-byte file stored both ways. -/
theorem gzip_transparent_output_witness :
    ((fun s => if s = ("in.rtab").data then some (FileEntry.plain ('a' :: []))
       else if s = ("in.rtab.gz").data then some (FileEntry.gzipped ('a' :: []))
       else none) (("in.rtab").data) = some (FileEntry.plain ('a' :: []))) ∧
    ((".gz").data.isSuffixOf (("in.rtab").data) = false) ∧
    ((fun s => if s = ("in.rtab").data then some (FileEntry.plain ('a' :: []))
       else if s = ("in.rtab.gz").data then some (FileEntry.gzipped ('a' :: []))
       else none) (("in.rtab.gz").data) = some (FileEntry.gzipped ('a' :: []))) ∧
    ((".gz").data.isSuffixOf (("in.rtab.gz").data) = true) ∧
    (runMainFile true (fun s => if s = ("in.rtab").data then some (FileEntry.plain ('a' :: []))
       else if s = ("in.rtab.gz").data then some (FileEntry.gzipped ('a' :: []))
       else none) (("in.rtab").data) =
     runMainFile true (fun s => if s = ("in.rtab").data then some (FileEntry.plain ('a' :: []))
       else if s = ("in.rtab.gz").data then some (FileEntry.gzipped ('a' :: []))
       else none) (("in.rtab.gz").data)) :=
  ⟨by decide, by decide, by decide, by decide,
   (gzip_transparent_output true _ (("in.rtab").data) (("in.rtab.gz").data) ('a' :: [])
     (by decide) (by decide) (by decide) (by decide)).1⟩

/-- C10 counterexample: on an input whose quoted field spans a line break,
the input has two non-comment lines but the fallback writes a single record:
the fallback does not emit one record per input line in general. -/
theorem fallback_quoted_newline_fewer_records :
    ((splitlines inputQuotedNewline).filter
        (fun l => !((pyLStrip l).head? == some '#'))).length = 2 ∧
    (fallbackRows '\t' '#' inputQuotedNewline).length = 1 ∧
    convert_fallback '\t' '#' inputQuotedNewline = (("\"a\nb\"\r\n").data) := by
  decide

/-- C10 amended: in the fallback path a blank input line is parsed as an
empty row, is not skipped, and is emitted as an empty output record (a bare
record terminator), for every delimiter and comment character; on a concrete
input with a blank middle line the fallback emits three records including the
empty one, while the structured path drops the blank line (its frame holds
only the header and one data row).  One output record corresponds to one
parsed csv row, which coincides with one non-comment input line only when no
quoted field spans a line break. -/
theorem fallback_blank_line_empty_record (d c : Char) :
    convert_fallback d c (('\n') :: []) = ('\r') :: ('\n') :: [] ∧
    convert_fallback '\t' '#' (("a\n\nb\n").data) = (("a\r\n\r\nb\r\n").data) ∧
    pandasReadCsv '\t' '#' (("a\n\nb\n").data) =
      Except.ok { columns := ('a' :: []) :: [], rows := (('b' :: []) :: []) :: [] } := by
  refine ⟨?_, by decide, by rfl⟩
  simp [convert_fallback, fallbackRows, csvParse, csvParseGo, skipRow, csvWriteRow,
    csvJoinRow, List.intercalate]
